import Mathlib

/-!
Shallow embedding of the model-training pipeline of the
Formula 1 Winner Prediction repository
(notebooks/model_training.ipynb, the only executable source file).

The notebook cell is, in order:

  data = pd.read_csv('../data/processed_data/processed_canadian_gp.csv')
  X = data.drop(columns=['Position', 'Points', 'Win'])
  y = data['Win']
  X_train, X_test, y_train, y_test = train_test_split(X, y, test_size=0.2, random_state=42)
  model = RandomForestClassifier(n_estimators=100, random_state=42)
  model.fit(X_train, y_train)
  y_pred = model.predict(X_test)
  print("Accuracy:", accuracy_score(y_test, y_pred))
  print(classification_report(y_test, y_pred))
  dump(model, '../models/random_forest_model.pkl')

The embedding models the loaded CSV as a `DataFrame` (named columns over
rows of integer-encoded cell values), the pandas column operations
(`drop`, column selection) with their KeyError behaviour, sklearn's
`train_test_split` (shuffled split whose pseudo-random permutation is a
deterministic function of the seed, with sklearn's empty-partition
`ValueError`), `RandomForestClassifier` fit/predict at the level the
claims need (fit validates its input and records the fitted state,
including the DataFrame column names, sklearn's `feature_names_in_`;
predict is a deterministic pure function of the fitted state and the
input), the metrics `accuracy_score` and `classification_report`, and
`joblib.dump` as publishing the model value to a registry slot.
-/

deriving instance DecidableEq for Except

namespace F1

/-- Cell value of the processed CSV. The claims under study depend only on
which columns exist and how rows are routed, never on cell arithmetic
beyond equality and distance, so cells are integer-encoded values. -/
abbrev Val := Int

/-- A pandas DataFrame: an ordered list of column names and the data rows
(each row lists its cells in header order). -/
structure DataFrame where
  header : List String
  rows : List (List Val)
deriving DecidableEq, Repr

/-- Errors raised by the pipeline: pandas KeyError (missing column labels)
and sklearn ValueError. -/
inductive Err where
  | keyError (missing : List String)
  | valueError (msg : String)
deriving DecidableEq, Repr

/-- Restriction of one data row to the columns not being dropped:
cells are kept exactly when their column name is not in `names`. -/
def dropRow (header names : List String) (row : List Val) : List Val :=
  ((header.zip row).filter (fun p => !(names.contains p.1))).map Prod.snd

/-- pandas `DataFrame.drop(columns=names)`: removes the listed columns;
with the default `errors='raise'` it raises KeyError when any requested
label is absent from the header. -/
def DataFrame.dropCols (df : DataFrame) (names : List String) : Except Err DataFrame :=
  let missing := names.filter (fun c => !(df.header.contains c))
  if missing.isEmpty then
    .ok ⟨df.header.filter (fun c => !(names.contains c)), df.rows.map (dropRow df.header names)⟩
  else
    .error (.keyError missing)

/-- Value of a row at the first column called `name` (0 when absent;
callers guard presence first, as pandas indexing does). -/
def rowVal (header : List String) (row : List Val) (name : String) : Val :=
  ((((header.zip row).filter (fun p => p.1 = name)).map Prod.snd).headD 0)

/-- pandas column selection `data[name]`: the column's values, or KeyError
when the header has no such column. -/
def DataFrame.col (df : DataFrame) (name : String) : Except Err (List Val) :=
  if df.header.contains name then
    .ok (df.rows.map (fun r => rowVal df.header r name))
  else
    .error (.keyError [name])

/-- One step of a 64-bit linear congruential generator, modelling the
deterministic pseudo-random stream numpy derives from a fixed seed. -/
def lcgNext (s : Nat) : Nat := (6364136223846793005 * s + 1442695040888963407) % 2 ^ 64

/-- Fuel-indexed worker for `shuffle`: repeatedly extract the element at
a pseudo-randomly chosen remaining position (structural recursion on
the fuel, which callers set to the list length). -/
def shuffleAux {α : Type} : Nat → Nat → List α → List α
  | 0, _, _ => []
  | _ + 1, _, [] => []
  | fuel + 1, s, x :: xs =>
    (x :: xs).get ⟨lcgNext s % (x :: xs).length, Nat.mod_lt _ (Nat.succ_pos xs.length)⟩ ::
      shuffleAux fuel (lcgNext s) ((x :: xs).eraseIdx (lcgNext s % (x :: xs).length))

/-- Model of `numpy.random.RandomState(seed).permutation` applied to a
list: repeatedly extract the element at a pseudo-randomly chosen
remaining position. It is a deterministic function of the seed and, as
proved in `shuffle_perm`, always a permutation of its input — the two
facts sklearn's shuffled split relies on. -/
def shuffle {α : Type} (s : Nat) (l : List α) : List α :=
  shuffleAux l.length s l

/-- Integer form of `ceil(testSize * n)` for the nonnegative fractional
`test_size` sklearn accepts, written over the rational's reduced
numerator and denominator so that it evaluates by kernel reduction;
`nTestOf_eq_ceil` proves it equal to `Nat.ceil (testSize * n)`. -/
def nTestOf (testSize : Rat) (n : Nat) : Nat :=
  (testSize.num.toNat * n + (testSize.den - 1)) / testSize.den

/-- sklearn `train_test_split(..., test_size, random_state=seed)` with the
default `shuffle=True`, applied to one sequence: the test-set size is
`ceil(test_size * n)`, the train-set size the remainder; an empty
resulting train or test set raises ValueError
(`_validate_shuffle_split`); otherwise the seeded permutation's first
`n_test` elements form the test set and the rest the train set.
Returns `(train, test)`. -/
def train_test_split {α : Type} (xs : List α) (testSize : Rat) (seed : Nat) :
    Except Err (List α × List α) :=
  let n := xs.length
  let nTest := nTestOf testSize n
  let nTrain := n - nTest
  if nTrain = 0 ∨ nTest = 0 then
    .error (.valueError "train_test_split: resulting train set or test set will be empty")
  else
    let p := shuffle seed xs
    .ok ((p.drop nTest).take nTrain, p.take nTest)

/-- A feature row paired with its `Win` label: `train_test_split(X, y, ...)`
applies one permutation jointly to `X` and `y`, i.e. it splits the
zipped sequence of (feature row, label) pairs. -/
structure LabeledExample where
  features : List Val
  win : Val
deriving DecidableEq, Repr

/-- The fitted `RandomForestClassifier(n_estimators=100, random_state=42)`
state, at the granularity the pipeline observes: the hyperparameters,
the column names of the training DataFrame (sklearn records them on the
estimator as `feature_names_in_` when `fit` receives a DataFrame), and
the fitted training data the ensemble was built from. -/
structure FittedModel where
  n_estimators : Nat
  random_state : Nat
  feature_names_in : List String
  trainX : List (List Val)
  trainY : List Val
deriving DecidableEq, Repr

/-- sklearn `RandomForestClassifier(n_estimators=100, random_state=42).fit`:
validates the input — an empty training set raises ValueError
(check_array with ensure_min_samples), a feature matrix with zero
feature columns raises ValueError (check_array with
ensure_min_features=1; for the DataFrame passed here the feature count
is its column count), and an X/y length mismatch raises ValueError
(check_consistent_length) — and otherwise returns the fitted estimator,
which records the DataFrame's column list as `feature_names_in_`. There
is no further check: a single-class label vector is accepted. -/
def fit (header : List String) (xtr : List (List Val)) (ytr : List Val) :
    Except Err FittedModel :=
  if xtr.isEmpty then
    .error (.valueError "Found array with 0 samples")
  else if header.isEmpty then
    .error (.valueError "Found array with 0 features while a minimum of 1 is required")
  else if xtr.length ≠ ytr.length then
    .error (.valueError "Found input variables with inconsistent numbers of samples")
  else
    .ok ⟨100, 42, header, xtr, ytr⟩

/-- L1 distance between two feature rows. -/
def rowDist (a b : List Val) : Nat :=
  ((a.zip b).map (fun p => (p.1 - p.2).natAbs)).sum

/-- Deterministic abstraction of the fitted forest's prediction for one
row: the label of the training example nearest in L1 distance (first
one on ties). The tree-ensemble computation itself is out of scope;
every property proved below uses only that predict is a pure function
of the fitted state and the input, which holds of the real classifier
because its randomness is fixed by `random_state=42` at fit time. -/
def FittedModel.predictOne (m : FittedModel) (row : List Val) : Val :=
  ((m.trainX.zip m.trainY).foldl
    (fun best p =>
      match best with
      | none => some (rowDist p.1 row, p.2)
      | some b => if rowDist p.1 row < b.1 then some (rowDist p.1 row, p.2) else some b)
    none).elim 0 Prod.snd

/-- sklearn `model.predict(X_test)`: one predicted label per test row. -/
def FittedModel.predict (m : FittedModel) (testRows : List (List Val)) : List Val :=
  testRows.map m.predictOne

/-- sklearn `accuracy_score(y_true, y_pred)`: fraction of positions where
prediction and truth agree, written through `mkRat` so that it evaluates
by kernel reduction; `accuracy_score_eq_div` restates it as the
quotient. -/
def accuracy_score (yTrue yPred : List Val) : Rat :=
  if yTrue.length = 0 then 0
  else mkRat ((yTrue.zip yPred).countP (fun p => p.1 == p.2) : Int) yTrue.length

/-- Division that yields 0 on a zero denominator, as sklearn's metrics do
for undefined precision/recall/F1 (`zero_division` warning path). -/
def safeDiv (a b : Rat) : Rat := if b = 0 then 0 else a / b

/-- One row of sklearn's `classification_report`: a class label with its
precision, recall and F1 score. -/
structure ClassMetrics where
  label : Val
  precision : Rat
  recallScore : Rat
  f1 : Rat
deriving DecidableEq, Repr

/-- True positives of class `c`: positions where truth and prediction are
both `c`. -/
def tpCount (yTrue yPred : List Val) (c : Val) : Nat :=
  (yTrue.zip yPred).countP (fun p => p.1 == c && p.2 == c)

/-- False positives of class `c`: predicted `c`, truth different. -/
def fpCount (yTrue yPred : List Val) (c : Val) : Nat :=
  (yTrue.zip yPred).countP (fun p => p.1 != c && p.2 == c)

/-- False negatives of class `c`: truth `c`, predicted different. -/
def fnCount (yTrue yPred : List Val) (c : Val) : Nat :=
  (yTrue.zip yPred).countP (fun p => p.1 == c && p.2 != c)

/-- Per-class precision/recall/F1 of sklearn's `classification_report`:
precision = tp/(tp+fp), recall = tp/(tp+fn), F1 the harmonic mean of the
two, each 0 when its denominator is 0 (sklearn's zero-division path).
Written through `mkRat` over the integer counts so that it evaluates by
kernel reduction; `classMetrics_eq_formulas` restates the three fields
as the textbook `safeDiv` quotients. -/
def classMetrics (yTrue yPred : List Val) (c : Val) : ClassMetrics :=
  let tp := tpCount yTrue yPred c
  let fp := fpCount yTrue yPred c
  let fn := fnCount yTrue yPred c
  ⟨c, mkRat tp (tp + fp), mkRat tp (tp + fn),
    if tp = 0 then 0 else mkRat (2 * tp) (2 * tp + fp + fn)⟩

/-- sklearn `classification_report(y_test, y_pred)`: one metrics row per
class label occurring in truth or prediction, in sorted label order. -/
def classification_report (yTrue yPred : List Val) : List ClassMetrics :=
  (((yTrue ++ yPred).dedup).insertionSort (· ≤ ·)).map (classMetrics yTrue yPred)

/-- The model-registry slot behind `../models/random_forest_model.pkl`:
either empty or holding one pickled model. -/
abbrev Registry := Option FittedModel

/-- joblib `dump(model, '../models/random_forest_model.pkl')`: publishes
the model value into the registry slot, replacing any previous one. -/
def dump (m : FittedModel) (_reg : Registry) : Registry := some m

/-- Error of the registry's read side. -/
inductive LoadErr where
  | noModelAvailable
deriving DecidableEq, Repr

/-- Modelled from the spec: the registry's `load()` is not under src/
(the serving/registry module of the repository is absent; only the
notebook's `dump` call is present). Per the spec it returns the stored
artifact and fails with `NoModelAvailableError` when none is stored —
which is exactly joblib `load` of the dumped pickle. -/
def load (reg : Registry) : Except LoadErr FittedModel :=
  match reg with
  | some m => .ok m
  | none => .error .noModelAvailable

/-- Modelled from the spec: `currentSchema()` is not under src/. Per the
spec it answers the ordered feature-name list from the stored artifact
alone, which the stored estimator supports through its recorded
`feature_names_in_`. -/
def currentSchema (reg : Registry) : Except LoadErr (List String) :=
  (load reg).map (fun m => m.feature_names_in)

/-- The column labels the notebook removes from the feature side:
`data.drop(columns=['Position', 'Points', 'Win'])`. -/
def droppedCols : List String := ["Position", "Points", "Win"]

/-- The Prepare Features and Target step:
`X = data.drop(columns=['Position', 'Points', 'Win'])` and
`y = data['Win']`. -/
def prepare (data : DataFrame) : Except Err (DataFrame × List Val) :=
  match data.dropCols droppedCols with
  | .error e => .error e
  | .ok X =>
    match data.col "Win" with
    | .error e => .error e
    | .ok y => .ok (X, y)

/-- The Split Data step on the prepared features and target: one joint
shuffled split of X and y with `test_size=0.2` and `random_state=42`. -/
def splitExamples (X : DataFrame) (y : List Val) :
    Except Err (List LabeledExample × List LabeledExample) :=
  train_test_split ((X.rows.zip y).map (fun p => LabeledExample.mk p.1 p.2)) (mkRat 1 5) 42

/-- Everything the notebook run leaves behind: the fitted model, the two
printed evaluation results, and the registry slot after the dump. -/
structure PipelineOutput where
  model : FittedModel
  accuracy : Rat
  report : List ClassMetrics
  registry : Registry
deriving DecidableEq, Repr

/-- The notebook cell end to end, from the loaded CSV (as a DataFrame):
prepare features/target, split, fit, evaluate on the held-out test
partition, and dump the model to the registry slot. -/
def pipeline (data : DataFrame) : Except Err PipelineOutput :=
  match prepare data with
  | .error e => .error e
  | .ok (X, y) =>
    match splitExamples X y with
    | .error e => .error e
    | .ok (trainE, testE) =>
      match fit X.header (trainE.map LabeledExample.features) (trainE.map LabeledExample.win) with
      | .error e => .error e
      | .ok model =>
        let yPred := model.predict (testE.map LabeledExample.features)
        .ok ⟨model,
             accuracy_score (testE.map LabeledExample.win) yPred,
             classification_report (testE.map LabeledExample.win) yPred,
             dump model none⟩

/-! Supporting lemmas about the embedded operations. -/

/-- Extracting the element at position `i` and the remainder of the list
is a permutation of the list. -/
theorem get_cons_eraseIdx_perm {α : Type} (l : List α) (i : Fin l.length) :
    List.Perm (l.get i :: l.eraseIdx i.1) l := by
  rw [List.eraseIdx_eq_take_drop_succ]
  refine List.Perm.trans List.perm_middle.symm ?_
  rw [List.get_eq_getElem, List.getElem_cons_drop, List.take_append_drop]

/-- The fueled extraction shuffle permutes its input whenever the fuel
covers the list length. -/
theorem shuffleAux_perm {α : Type} :
    ∀ (fuel s : Nat) (l : List α), l.length ≤ fuel →
      List.Perm (shuffleAux fuel s l) l
  | 0, _, l, h => by
    have hl : l = [] := List.length_eq_zero.mp (Nat.le_zero.mp h)
    simp [hl, shuffleAux]
  | _ + 1, _, [], _ => by simp [shuffleAux]
  | fuel + 1, s, x :: xs, h => by
    have hi : lcgNext s % (x :: xs).length < (x :: xs).length :=
      Nat.mod_lt _ (Nat.succ_pos xs.length)
    have hlen : ((x :: xs).eraseIdx (lcgNext s % (x :: xs).length)).length ≤ fuel := by
      have hx : (x :: xs).length = xs.length + 1 := rfl
      rw [List.length_eraseIdx, if_pos hi, hx]
      rw [hx] at h
      omega
    have ih := shuffleAux_perm fuel (lcgNext s) _ hlen
    exact (ih.cons _).trans (get_cons_eraseIdx_perm (x :: xs) ⟨_, hi⟩)

/-- The modelled seeded permutation really permutes its input. -/
theorem shuffle_perm {α : Type} (s : Nat) (l : List α) :
    List.Perm (shuffle s l) l :=
  shuffleAux_perm l.length s l (Nat.le_refl _)

/-- Inversion of a successful split: the two partitions are the seeded
permutation's tail and head segments, and neither size is zero. -/
theorem train_test_split_ok {α : Type} {xs : List α} {ts : Rat} {seed : Nat}
    {tr te : List α} (h : train_test_split xs ts seed = .ok (tr, te)) :
    tr = (shuffle seed xs).drop (nTestOf ts xs.length) ∧
    te = (shuffle seed xs).take (nTestOf ts xs.length) ∧
    xs.length - nTestOf ts xs.length ≠ 0 ∧ nTestOf ts xs.length ≠ 0 := by
  have hp : (shuffle seed xs).length = xs.length := (shuffle_perm seed xs).length_eq
  simp only [train_test_split] at h
  split at h
  · exact absurd h (by simp)
  · rename_i hcond
    rw [not_or] at hcond
    injection h with h'
    injection h' with h1 h2
    refine ⟨?_, h2.symm, hcond.1, hcond.2⟩
    have hdl : ((shuffle seed xs).drop (nTestOf ts xs.length)).length =
        xs.length - nTestOf ts xs.length := by
      rw [List.length_drop, hp]
    rw [← h1]
    exact List.take_of_length_le (Nat.le_of_eq hdl)

/-- Ceiling of the rational `a / d` as integer arithmetic. -/
theorem ceil_div_nat (a d : Nat) (hd : 0 < d) :
    Nat.ceil ((a : ℚ) / (d : ℚ)) = (a + d - 1) / d := by
  have hdq : (0 : ℚ) < (d : ℚ) := by exact_mod_cast hd
  apply Nat.le_antisymm
  · rw [Nat.ceil_le, div_le_iff₀ hdq]
    have hdm := Nat.div_add_mod (a + d - 1) d
    have hmod := Nat.mod_lt (a + d - 1) hd
    have h1 : a + d - 1 < ((a + d - 1) / d + 1) * d := by
      calc a + d - 1 = d * ((a + d - 1) / d) + (a + d - 1) % d := hdm.symm
        _ < d * ((a + d - 1) / d) + d := by omega
        _ = ((a + d - 1) / d + 1) * d := by ring
    have h2 : a ≤ (a + d - 1) / d * d := by
      have hh : ((a + d - 1) / d + 1) * d = (a + d - 1) / d * d + d := by ring
      omega
    exact_mod_cast h2
  · have hle : (a : ℚ) / d ≤ (Nat.ceil ((a : ℚ) / d) : ℚ) := Nat.le_ceil _
    rw [div_le_iff₀ hdq] at hle
    have h3 : a ≤ Nat.ceil ((a : ℚ) / d) * d := by exact_mod_cast hle
    calc (a + d - 1) / d
        ≤ (Nat.ceil ((a : ℚ) / d) * d + (d - 1)) / d := Nat.div_le_div_right (by omega)
      _ = Nat.ceil ((a : ℚ) / d) := by
          rw [Nat.add_comm, Nat.add_mul_div_right _ _ hd, Nat.div_eq_of_lt (by omega)]
          omega

/-- The integer test-set size agrees with sklearn's
`ceil(test_size * n)` for every nonnegative `test_size`. -/
theorem nTestOf_eq_ceil (q : Rat) (hq : 0 ≤ q) (n : Nat) :
    nTestOf q n = Nat.ceil (q * (n : ℚ)) := by
  have hd : 0 < q.den := q.pos
  have hnum : (0 : Int) ≤ q.num := Rat.num_nonneg.mpr hq
  have hqn : (q * (n : ℚ) : ℚ) = ((q.num.toNat * n : Nat) : ℚ) / (q.den : ℚ) := by
    have hcast : ((q.num.toNat : ℕ) : ℚ) = ((q.num : ℤ) : ℚ) := by
      exact_mod_cast congrArg (fun z : ℤ => (z : ℚ)) (Int.toNat_of_nonneg hnum)
    conv_lhs => rw [← Rat.num_div_den q]
    push_cast [hcast]
    ring
  rw [hqn, ceil_div_nat _ _ hd]
  unfold nTestOf
  congr 1
  omega

/-- A `mkRat` over natural numerator and denominator is the sklearn-style
zero-guarded quotient. -/
theorem mkRat_eq_safeDiv (a b : Nat) :
    mkRat (a : Int) b = safeDiv (a : ℚ) (b : ℚ) := by
  by_cases hb : b = 0
  · subst hb
    simp [safeDiv]
  · rw [Rat.mkRat_eq_div, safeDiv, if_neg (by exact_mod_cast hb)]
    push_cast
    rfl

/-- The accuracy value is the fraction of agreeing positions. -/
theorem accuracy_score_eq_div (yTrue yPred : List Val) (h : yTrue.length ≠ 0) :
    accuracy_score yTrue yPred =
      (((yTrue.zip yPred).countP (fun p => p.1 == p.2) : ℚ)) / ((yTrue.length : ℚ)) := by
  unfold accuracy_score
  rw [if_neg h, Rat.mkRat_eq_div]
  push_cast
  rfl

/-- The division with a zero numerator is zero. -/
theorem safeDiv_zero_left (b : ℚ) : safeDiv 0 b = 0 := by
  unfold safeDiv
  split <;> simp

/-- The three metric fields of a report row are the textbook per-class
precision, recall and F1 formulas (each 0 on a zero denominator):
precision = tp/(tp+fp), recall = tp/(tp+fn), F1 the harmonic mean
2·P·R/(P+R). -/
theorem classMetrics_eq_formulas (yTrue yPred : List Val) (c : Val) :
    (classMetrics yTrue yPred c).label = c ∧
    (classMetrics yTrue yPred c).precision =
      safeDiv (tpCount yTrue yPred c : ℚ)
        ((tpCount yTrue yPred c : ℚ) + (fpCount yTrue yPred c : ℚ)) ∧
    (classMetrics yTrue yPred c).recallScore =
      safeDiv (tpCount yTrue yPred c : ℚ)
        ((tpCount yTrue yPred c : ℚ) + (fnCount yTrue yPred c : ℚ)) ∧
    (classMetrics yTrue yPred c).f1 =
      safeDiv
        (2 * (classMetrics yTrue yPred c).precision * (classMetrics yTrue yPred c).recallScore)
        ((classMetrics yTrue yPred c).precision + (classMetrics yTrue yPred c).recallScore) := by
  set tp := tpCount yTrue yPred c with htp
  set fp := fpCount yTrue yPred c with hfp
  set fn := fnCount yTrue yPred c with hfn
  have hprec : (classMetrics yTrue yPred c).precision =
      safeDiv (tp : ℚ) ((tp : ℚ) + (fp : ℚ)) := by
    show mkRat (tp : Int) (tp + fp) = _
    rw [mkRat_eq_safeDiv]
    push_cast
    rfl
  have hrcl : (classMetrics yTrue yPred c).recallScore =
      safeDiv (tp : ℚ) ((tp : ℚ) + (fn : ℚ)) := by
    show mkRat (tp : Int) (tp + fn) = _
    rw [mkRat_eq_safeDiv]
    push_cast
    rfl
  refine ⟨rfl, hprec, hrcl, ?_⟩
  rw [hprec, hrcl]
  show (if tp = 0 then (0 : ℚ) else mkRat ((2 * tp : Nat) : Int) (2 * tp + fp + fn)) = _
  by_cases h0 : tp = 0
  · rw [if_pos h0, h0]
    push_cast
    simp [safeDiv]
  · rw [if_neg h0]
    have ht : (0 : ℚ) < (tp : ℚ) := by exact_mod_cast Nat.pos_of_ne_zero h0
    have hA : (0 : ℚ) < (tp : ℚ) + (fp : ℚ) := by positivity
    have hB : (0 : ℚ) < (tp : ℚ) + (fn : ℚ) := by positivity
    have hPR : (0 : ℚ) <
        (tp : ℚ) / ((tp : ℚ) + (fp : ℚ)) + (tp : ℚ) / ((tp : ℚ) + (fn : ℚ)) :=
      add_pos (div_pos ht hA) (div_pos ht hB)
    unfold safeDiv
    rw [if_neg hA.ne', if_neg hB.ne', if_neg hPR.ne', Rat.mkRat_eq_div]
    push_cast
    field_simp
    ring

/-- A successful split returns a pair of partitions that together permute
the input. -/
theorem train_test_split_perm {α : Type} {xs : List α} {ts : Rat} {seed : Nat}
    {tr te : List α} (h : train_test_split xs ts seed = .ok (tr, te)) :
    List.Perm (tr ++ te) xs := by
  obtain ⟨h1, h2, -, -⟩ := train_test_split_ok h
  rw [h1, h2]
  exact (List.perm_append_comm.trans
    (by rw [List.take_append_drop])).trans (shuffle_perm seed xs)

/-- Training succeeds exactly on a nonempty training set with at least
one feature column whose features and labels have equal length; no
other condition is checked. -/
theorem fit_isOk_iff (header : List String) (xtr : List (List Val)) (ytr : List Val) :
    (fit header xtr ytr).isOk = true ↔
      xtr ≠ [] ∧ header ≠ [] ∧ xtr.length = ytr.length := by
  unfold fit
  split
  · rename_i hempty
    exact ⟨fun hok => Bool.noConfusion hok,
      fun hand => absurd (List.isEmpty_iff.mp hempty) hand.1⟩
  · rename_i hempty
    split
    · rename_i hfeat
      exact ⟨fun hok => Bool.noConfusion hok,
        fun hand => absurd (List.isEmpty_iff.mp hfeat) hand.2.1⟩
    · rename_i hfeat
      split
      · rename_i hlen
        exact ⟨fun hok => Bool.noConfusion hok, fun hand => absurd hand.2.2 hlen⟩
      · rename_i hlen
        exact ⟨fun _ => ⟨fun hnil => hempty (by simp [hnil]),
          fun hnil => hfeat (by simp [hnil]), not_ne_iff.mp hlen⟩, fun _ => rfl⟩

/-- Inversion of a successful pipeline run: the run prepared features and
target, split them, fitted the model on the train partition, computed
the two metrics on the held-out test partition, and published exactly
the fitted model to the registry slot. -/
theorem pipeline_ok_inv {data : DataFrame} {out : PipelineOutput}
    (h : pipeline data = .ok out) :
    ∃ X y trainE testE,
      prepare data = .ok (X, y) ∧
      splitExamples X y = .ok (trainE, testE) ∧
      fit X.header (trainE.map LabeledExample.features) (trainE.map LabeledExample.win) =
        .ok out.model ∧
      out.accuracy = accuracy_score (testE.map LabeledExample.win)
        (out.model.predict (testE.map LabeledExample.features)) ∧
      out.report = classification_report (testE.map LabeledExample.win)
        (out.model.predict (testE.map LabeledExample.features)) ∧
      out.registry = some out.model := by
  unfold pipeline at h
  split at h
  · exact absurd h (by simp)
  rename_i X y hprep
  split at h
  · exact absurd h (by simp)
  rename_i trainE testE hsplit
  split at h
  · exact absurd h (by simp)
  rename_i model hfit
  injection h with h1
  refine ⟨X, y, trainE, testE, hprep, hsplit, ?_, ?_, ?_, ?_⟩ <;>
    rw [← h1] <;> simp [dump, hfit]

/-- Inversion of a successful column drop: the result's header is the
input header without the dropped names. -/
theorem dropCols_ok_header {df : DataFrame} {names : List String} {X : DataFrame}
    (h : df.dropCols names = .ok X) :
    X.header = df.header.filter (fun c => !(names.contains c)) := by
  simp only [DataFrame.dropCols] at h
  split at h
  · injection h with h1
    rw [← h1]
  · exact absurd h (by simp)

/-- Inversion of successful feature/target preparation: the feature
matrix's header is the input header without Position, Points, Win. -/
theorem prepare_ok_header {data X : DataFrame} {y : List Val}
    (h : prepare data = .ok (X, y)) :
    X.header = data.header.filter (fun c => !(droppedCols.contains c)) := by
  unfold prepare at h
  split at h
  · exact absurd h (by simp)
  rename_i X' hdrop
  split at h
  · exact absurd h (by simp)
  rename_i y' hcol
  injection h with h1
  injection h1 with hX hy
  rw [← hX]
  exact dropCols_ok_header hdrop

/-- Inversion of a successful fit: the returned estimator records the
hyperparameters, the training column names and the training data. -/
theorem fit_ok_inv {header : List String} {xtr : List (List Val)} {ytr : List Val}
    {m : FittedModel} (h : fit header xtr ytr = .ok m) :
    m = ⟨100, 42, header, xtr, ytr⟩ := by
  unfold fit at h
  split at h
  · exact absurd h (by simp)
  split at h
  · exact absurd h (by simp)
  split at h
  · exact absurd h (by simp)
  injection h with h1
  exact h1.symm

/-! Concrete fixtures used by the witness theorems. -/

/-- A two-row processed table (one winner, one non-winner) on which the
notebook pipeline succeeds end to end. -/
def sampleData : DataFrame :=
  ⟨["Grid", "Position", "Points", "Win"], [[1, 1, 25, 1], [2, 2, 18, 0]]⟩

/-- The pipeline output on `sampleData`. -/
def sampleOut : PipelineOutput :=
  ((pipeline sampleData).toOption).getD ⟨⟨0, 0, [], [], []⟩, 0, [], none⟩

/-- Five labeled examples whose `Win` labels are all 0: one label class is
entirely absent. -/
def allFalseExamples : List LabeledExample :=
  [⟨[1, 3], 0⟩, ⟨[2, 5], 0⟩, ⟨[3, 7], 0⟩, ⟨[4, 9], 0⟩, ⟨[5, 11], 0⟩]

/-- Two labeled examples whose `Win` labels are all 0. -/
def twoFalseExamples : List LabeledExample :=
  [⟨[1, 3], 0⟩, ⟨[2, 5], 0⟩]

/-- The split the pipeline's parameters produce on `allFalseExamples`. -/
def sampleSplit : List LabeledExample × List LabeledExample :=
  ((train_test_split allFalseExamples (mkRat 1 5) 42).toOption).getD ([], [])

/-- The prepared feature matrix of `sampleData`. -/
def sampleX : DataFrame := ⟨["Grid"], [[1], [2]]⟩

/-- The prepared target of `sampleData`. -/
def sampleY : List Val := [1, 0]

/-- The split the pipeline's parameters produce on the prepared
`sampleData`. -/
def sampleXSplit : List LabeledExample × List LabeledExample :=
  ((splitExamples sampleX sampleY).toOption).getD ([], [])

/-- A table lacking the `Win` column. -/
def noWinData : DataFrame := ⟨["Grid", "Position", "Points"], [[1, 1, 25]]⟩

/-! The claims. -/

/-- C1: before the Model Trainer sees either partition, the label column
`Win` and the label-contaminating columns `Position` and `Points` are
excluded from the feature side. For every input table: whenever feature
preparation succeeds, its feature matrix `X` contains none of the three
columns, and whenever the whole pipeline succeeds, the feature names the
trainer recorded at fit time contain none of the three columns either. -/
theorem C1_label_columns_dropped (data : DataFrame) :
    (∀ X y, prepare data = .ok (X, y) →
      "Position" ∉ X.header ∧ "Points" ∉ X.header ∧ "Win" ∉ X.header) ∧
    (∀ out, pipeline data = .ok out →
      "Position" ∉ out.model.feature_names_in ∧
      "Points" ∉ out.model.feature_names_in ∧
      "Win" ∉ out.model.feature_names_in) := by
  have key : ∀ (X : DataFrame) (y : List Val), prepare data = .ok (X, y) →
      "Position" ∉ X.header ∧ "Points" ∉ X.header ∧ "Win" ∉ X.header := by
    intro X y h
    have hh := prepare_ok_header h
    refine ⟨?_, ?_, ?_⟩ <;>
      · intro hmem
        rw [hh] at hmem
        have hkeep := (List.mem_filter.mp hmem).2
        simp [droppedCols] at hkeep
  refine ⟨key, ?_⟩
  intro out hout
  obtain ⟨X, y, trE, teE, hprep, hsplit, hfit, -, -, -⟩ := pipeline_ok_inv hout
  have hfn : out.model.feature_names_in = X.header := by rw [fit_ok_inv hfit]
  rw [hfn]
  exact key X y hprep

/-- Witness for C1: on the concrete table `sampleData` the pipeline
succeeds and the trained model records none of the three label columns. -/
theorem C1_label_columns_dropped_witness :
    "Position" ∉ sampleOut.model.feature_names_in ∧
    "Points" ∉ sampleOut.model.feature_names_in ∧
    "Win" ∉ sampleOut.model.feature_names_in :=
  (C1_label_columns_dropped sampleData).2 sampleOut (by decide)

/-- C2 as written is false on the code: the assembly step checks nothing
about label classes, so on a five-example input whose labels are all 0
(one label class entirely absent) it succeeds and produces partitions
instead of raising `InsufficientDataError` (an error that does not exist
in the code). -/
theorem C2_no_class_check_cex :
    (train_test_split allFalseExamples (mkRat 1 5) 42).isOk = true := by decide

/-- C2 amended: with fewer than 2 examples the split fails — with
sklearn's `ValueError` for an empty resulting partition, not an
`InsufficientDataError` — and with 2 or more examples it always
succeeds and produces partitions, regardless of the labels (no
label-class check exists). -/
theorem C2_split_size_behaviour (exs : List LabeledExample) :
    (exs.length < 2 →
      train_test_split exs (mkRat 1 5) 42 =
        .error (.valueError
          "train_test_split: resulting train set or test set will be empty")) ∧
    (2 ≤ exs.length → (train_test_split exs (mkRat 1 5) 42).isOk = true) := by
  have hval : nTestOf (mkRat 1 5) exs.length = (exs.length + 4) / 5 := by
    unfold nTestOf
    rw [show (mkRat 1 5).num = 1 from by decide, show (mkRat 1 5).den = 5 from by decide]
    norm_num
  constructor
  · intro hlt
    simp only [train_test_split, hval]
    rw [if_pos (by omega)]
  · intro hge
    simp only [train_test_split, hval]
    rw [if_neg (by omega)]
    rfl

/-- Witness for C2 (amended): a one-example input fails with the
ValueError, and a two-example all-negative input succeeds. -/
theorem C2_split_size_behaviour_witness :
    (train_test_split ([⟨[1], 1⟩] : List LabeledExample) (mkRat 1 5) 42 =
      .error (.valueError
        "train_test_split: resulting train set or test set will be empty")) ∧
    (train_test_split twoFalseExamples (mkRat 1 5) 42).isOk = true :=
  ⟨(C2_split_size_behaviour [⟨[1], 1⟩]).1 (by decide),
   (C2_split_size_behaviour twoFalseExamples).2 (by decide)⟩

/-- C3: the published artifact is exactly the fitted model; it carries the
ordered feature-name list it was trained with (sklearn records the
feature matrix's columns as `feature_names_in_` at fit time; the
pipeline applies no categorical encoding, so the recorded names are the
whole schema), and `currentSchema()` is answered from the stored
artifact alone, without re-running training. -/
theorem C3_artifact_schema (data : DataFrame) (out : PipelineOutput)
    (h : pipeline data = .ok out) :
    out.registry = some out.model ∧
    currentSchema out.registry = .ok out.model.feature_names_in ∧
    out.model.feature_names_in =
      data.header.filter (fun c => !(droppedCols.contains c)) := by
  obtain ⟨X, y, trE, teE, hprep, hsplit, hfit, -, -, hreg⟩ := pipeline_ok_inv h
  have hfn : out.model.feature_names_in = X.header := by rw [fit_ok_inv hfit]
  refine ⟨hreg, ?_, ?_⟩
  · rw [hreg]
    rfl
  · rw [hfn]
    exact prepare_ok_header hprep

/-- Witness for C3 on the concrete run over `sampleData`. -/
theorem C3_artifact_schema_witness :
    sampleOut.registry = some sampleOut.model ∧
    currentSchema sampleOut.registry = .ok sampleOut.model.feature_names_in ∧
    sampleOut.model.feature_names_in =
      sampleData.header.filter (fun c => !(droppedCols.contains c)) :=
  C3_artifact_schema sampleData sampleOut (by decide)

/-- C4: the train/test split is deterministic — with the same example
list, test fraction and seed, two calls return the same partitions
(the embedded split is a pure function of these inputs, mirroring the
fixed `random_state=42` in the source). -/
theorem C4_split_deterministic (exs : List LabeledExample) (testSize : Rat) (seed : Nat)
    (r1 r2 : Except Err (List LabeledExample × List LabeledExample))
    (h1 : train_test_split exs testSize seed = r1)
    (h2 : train_test_split exs testSize seed = r2) : r1 = r2 :=
  h1.symm.trans h2

/-- Witness for C4: two evaluations of the split on `allFalseExamples`
agree on the concrete partition value. -/
theorem C4_split_deterministic_witness :
    train_test_split allFalseExamples (mkRat 1 5) 42 = Except.ok sampleSplit :=
  C4_split_deterministic allFalseExamples (mkRat 1 5) 42 _ _ rfl (by decide)

/-- C5: persisting the fitted artifact and loading it back is a
round-trip: `load` after `dump` returns a model with the identical
feature schema whose prediction on any fixed feature matrix equals the
pre-save prediction exactly. (The registry read side is not under src/;
`load` is modelled from the spec as reading back the dumped pickle.) -/
theorem C5_save_load_round_trip (m : FittedModel) (reg : Registry) (v : List (List Val)) :
    ∃ m2, load (dump m reg) = .ok m2 ∧
      m2.feature_names_in = m.feature_names_in ∧
      m2.predict v = m.predict v :=
  ⟨m, rfl, rfl, rfl⟩

/-- C6 as written is false on the code: a training partition containing
only a single label class (here all labels 0) is accepted — fit returns
a model instead of failing with a TrainingError (no such error exists
in the code). -/
theorem C6_single_class_accepted_cex :
    (fit ["Grid"] [[1], [2]] [0, 0]).isOk = true := by decide

/-- C6 amended: the trainer fails — with sklearn ValueErrors, not a
TrainingError — exactly when the training partition is empty, the
feature matrix has zero feature columns (sklearn's
ensure_min_features=1 check, reachable when the CSV holds only the
three dropped columns), or its features and labels disagree in length;
a single label class and any nonempty feature schema are accepted.
Within the pipeline: whenever the prepared feature matrix keeps at
least one column, a successful split guarantees training succeeds and
returns a model regardless of the evaluation metrics, and whenever it
keeps no column, training fails with the zero-features ValueError. -/
theorem C6_fit_success_conditions :
    (∀ header xtr ytr, (fit header xtr ytr).isOk = true ↔
      xtr ≠ [] ∧ header ≠ [] ∧ xtr.length = ytr.length) ∧
    (∀ X y trE teE, X.header ≠ [] → splitExamples X y = .ok (trE, teE) →
      (fit X.header (trE.map LabeledExample.features)
        (trE.map LabeledExample.win)).isOk = true) ∧
    (∀ X y trE teE, X.header = [] → splitExamples X y = .ok (trE, teE) →
      fit X.header (trE.map LabeledExample.features) (trE.map LabeledExample.win) =
        .error (.valueError
          "Found array with 0 features while a minimum of 1 is required")) := by
  have htrne : ∀ (X : DataFrame) (y : List Val) (trE teE : List LabeledExample),
      splitExamples X y = .ok (trE, teE) → trE ≠ [] := by
    intro X y trE teE hs
    unfold splitExamples at hs
    obtain ⟨h1, -, h3, -⟩ := train_test_split_ok hs
    have hlen : trE.length ≠ 0 := by
      rw [h1, List.length_drop, (shuffle_perm 42 _).length_eq]
      exact h3
    intro h0
    rw [h0] at hlen
    exact hlen rfl
  refine ⟨fit_isOk_iff, ?_, ?_⟩
  · intro X y trE teE hX hs
    rw [fit_isOk_iff]
    refine ⟨?_, hX, by simp⟩
    intro hnil
    exact htrne X y trE teE hs (List.map_eq_nil_iff.mp hnil)
  · intro X y trE teE hX hs
    have hne := htrne X y trE teE hs
    unfold fit
    rw [if_neg (by simp [List.isEmpty_iff, hne]), if_pos (by rw [hX]; rfl)]

/-- Witness for C6 (amended): a concrete two-example train set is
accepted, the train partition of the split of the prepared `sampleData`
is trained on successfully, and a zero-column feature matrix with the
same labels is rejected with the zero-features ValueError. -/
theorem C6_fit_success_conditions_witness :
    (fit ["Grid"] [[1], [2]] [1, 0]).isOk = true ∧
    (fit sampleX.header (sampleXSplit.1.map LabeledExample.features)
      (sampleXSplit.1.map LabeledExample.win)).isOk = true ∧
    (fit (DataFrame.mk [] [[], []]).header
      ((((splitExamples (DataFrame.mk [] [[], []]) [1, 0]).toOption).getD
        ([], [])).1.map LabeledExample.features)
      ((((splitExamples (DataFrame.mk [] [[], []]) [1, 0]).toOption).getD
        ([], [])).1.map LabeledExample.win) =
      .error (.valueError
        "Found array with 0 features while a minimum of 1 is required")) :=
  ⟨(C6_fit_success_conditions.1 ["Grid"] [[1], [2]] [1, 0]).mpr (by decide),
   C6_fit_success_conditions.2.1 sampleX sampleY sampleXSplit.1 sampleXSplit.2
     (by decide) (by decide),
   C6_fit_success_conditions.2.2 (DataFrame.mk [] [[], []]) [1, 0]
     (((splitExamples (DataFrame.mk [] [[], []]) [1, 0]).toOption).getD ([], [])).1
     (((splitExamples (DataFrame.mk [] [[], []]) [1, 0]).toOption).getD ([], [])).2
     (by decide) (by decide)⟩

/-- C7: for every successful run, the evaluation step computes, on the
held-out test partition, both the overall accuracy — the fraction of
positions where prediction and truth agree — and a per-class breakdown
with one report row per label class, carrying that class's precision
tp/(tp+fp), recall tp/(tp+fn) and F1 (the harmonic mean of the two),
zero-denominator cases yielding 0. -/
theorem C7_evaluation_metrics (data : DataFrame) (out : PipelineOutput)
    (h : pipeline data = .ok out) :
    ∃ X y trainE testE yT yP,
      prepare data = .ok (X, y) ∧
      splitExamples X y = .ok (trainE, testE) ∧
      yT = testE.map LabeledExample.win ∧
      yP = out.model.predict (testE.map LabeledExample.features) ∧
      out.accuracy = accuracy_score yT yP ∧
      (yT.length ≠ 0 →
        out.accuracy = ((yT.zip yP).countP (fun p => p.1 == p.2) : ℚ) / (yT.length : ℚ)) ∧
      out.report = classification_report yT yP ∧
      (∀ c ∈ yT ++ yP, ∃ M ∈ out.report,
        M.label = c ∧
        M.precision = safeDiv (tpCount yT yP c : ℚ)
          ((tpCount yT yP c : ℚ) + (fpCount yT yP c : ℚ)) ∧
        M.recallScore = safeDiv (tpCount yT yP c : ℚ)
          ((tpCount yT yP c : ℚ) + (fnCount yT yP c : ℚ)) ∧
        M.f1 = safeDiv (2 * M.precision * M.recallScore)
          (M.precision + M.recallScore)) := by
  obtain ⟨X, y, trE, teE, hprep, hsplit, hfit, hacc, hrep, hreg⟩ := pipeline_ok_inv h
  refine ⟨X, y, trE, teE, _, _, hprep, hsplit, rfl, rfl, hacc, ?_, hrep, ?_⟩
  · intro hne
    rw [hacc, accuracy_score_eq_div _ _ hne]
  · intro c hc
    refine ⟨classMetrics (teE.map LabeledExample.win)
      (out.model.predict (teE.map LabeledExample.features)) c, ?_, ?_⟩
    · rw [hrep]
      unfold classification_report
      exact List.mem_map_of_mem _
        ((List.mem_insertionSort _).mpr (List.mem_dedup.mpr hc))
    · have hf := classMetrics_eq_formulas (teE.map LabeledExample.win)
        (out.model.predict (teE.map LabeledExample.features)) c
      exact ⟨hf.1, hf.2.1, hf.2.2.1, hf.2.2.2⟩

/-- Witness for C7 on the concrete run over `sampleData`. -/
theorem C7_evaluation_metrics_witness :
    ∃ X y trainE testE yT yP,
      prepare sampleData = .ok (X, y) ∧
      splitExamples X y = .ok (trainE, testE) ∧
      yT = testE.map LabeledExample.win ∧
      yP = sampleOut.model.predict (testE.map LabeledExample.features) ∧
      sampleOut.accuracy = accuracy_score yT yP ∧
      (yT.length ≠ 0 →
        sampleOut.accuracy =
          ((yT.zip yP).countP (fun p => p.1 == p.2) : ℚ) / (yT.length : ℚ)) ∧
      sampleOut.report = classification_report yT yP ∧
      (∀ c ∈ yT ++ yP, ∃ M ∈ sampleOut.report,
        M.label = c ∧
        M.precision = safeDiv (tpCount yT yP c : ℚ)
          ((tpCount yT yP c : ℚ) + (fpCount yT yP c : ℚ)) ∧
        M.recallScore = safeDiv (tpCount yT yP c : ℚ)
          ((tpCount yT yP c : ℚ) + (fnCount yT yP c : ℚ)) ∧
        M.f1 = safeDiv (2 * M.precision * M.recallScore)
          (M.precision + M.recallScore)) :=
  C7_evaluation_metrics sampleData sampleOut (by decide)

/-- C8: every successful split is a partition of its input: the train and
test partitions together permute the input, so each example occurs,
counted with multiplicity, exactly as often across the two partitions
as in the input — none dropped, none duplicated. -/
theorem C8_split_is_partition {α : Type} [DecidableEq α] (xs : List α) (ts : Rat)
    (seed : Nat) (tr te : List α) (h : train_test_split xs ts seed = .ok (tr, te)) :
    List.Perm (tr ++ te) xs ∧ ∀ a, tr.count a + te.count a = xs.count a := by
  have hp := train_test_split_perm h
  refine ⟨hp, fun a => ?_⟩
  rw [← List.count_append]
  exact hp.count_eq a

/-- Witness for C8 on the concrete split of `allFalseExamples`. -/
theorem C8_split_is_partition_witness :
    List.Perm (sampleSplit.1 ++ sampleSplit.2) allFalseExamples ∧
    ∀ a, sampleSplit.1.count a + sampleSplit.2.count a = allFalseExamples.count a :=
  C8_split_is_partition allFalseExamples (mkRat 1 5) 42 sampleSplit.1 sampleSplit.2
    (by decide)

/-- C9: the notebook pipeline is deterministic end to end — the split and
the classifier are both seeded with the fixed 42, so the embedded run
is a pure function of the input table: two runs on the same input
produce identical partitions, fitted models, metrics and saved
artifacts. -/
theorem C9_pipeline_deterministic (data : DataFrame) (r1 r2 : Except Err PipelineOutput)
    (h1 : pipeline data = r1) (h2 : pipeline data = r2) : r1 = r2 :=
  h1.symm.trans h2

/-- Witness for C9: the concrete run over `sampleData` equals its
independently evaluated output. -/
theorem C9_pipeline_deterministic_witness :
    pipeline sampleData = Except.ok sampleOut :=
  C9_pipeline_deterministic sampleData (pipeline sampleData) (Except.ok sampleOut) rfl
    (by decide)

/-- C10: if the input table lacks any of the columns Position, Points or
Win, the pipeline fails at feature/target preparation — the embedded
pandas drop raises KeyError for the absent labels — before any
splitting, training or persistence, so the run yields no output and no
artifact is written. -/
theorem C10_missing_column_fails_early (data : DataFrame)
    (h : "Position" ∉ data.header ∨ "Points" ∉ data.header ∨ "Win" ∉ data.header) :
    ∃ missing, missing ≠ [] ∧
      pipeline data = .error (.keyError missing) ∧
      ∀ out, pipeline data ≠ .ok out := by
  have hex : ∃ c ∈ droppedCols, c ∉ data.header := by
    rcases h with h | h | h
    · exact ⟨"Position", by simp [droppedCols], h⟩
    · exact ⟨"Points", by simp [droppedCols], h⟩
    · exact ⟨"Win", by simp [droppedCols], h⟩
  obtain ⟨c, hc1, hc2⟩ := hex
  have hcmem : c ∈ droppedCols.filter (fun c => !(data.header.contains c)) :=
    List.mem_filter.mpr ⟨hc1, by simpa using hc2⟩
  have hne : droppedCols.filter (fun c => !(data.header.contains c)) ≠ [] :=
    List.ne_nil_of_mem hcmem
  have hprep : prepare data =
      .error (.keyError (droppedCols.filter (fun c => !(data.header.contains c)))) := by
    simp only [prepare, DataFrame.dropCols]
    rw [if_neg (by simpa [List.isEmpty_iff] using hne)]
  have hpipe : pipeline data =
      .error (.keyError (droppedCols.filter (fun c => !(data.header.contains c)))) := by
    unfold pipeline
    rw [hprep]
  refine ⟨droppedCols.filter (fun c => !(data.header.contains c)), hne, hpipe, ?_⟩
  intro out hout
  rw [hpipe] at hout
  exact Except.noConfusion hout

/-- Witness for C10 on a concrete table lacking the Win column. -/
theorem C10_missing_column_fails_early_witness :
    ∃ missing, missing ≠ [] ∧
      pipeline noWinData = .error (.keyError missing) ∧
      ∀ out, pipeline noWinData ≠ .ok out :=
  C10_missing_column_fails_early noWinData (Or.inr (Or.inr (by decide)))

end F1
